import Mathlib

/-!
Shallow embedding of the lifecycle orchestrator in `main.py` of the TTS bot
repository, together with theorems checking the natural-language
specification against it.

The embedding models the observable control flow of the orchestrator:

* the acquisition phase of `TTSBot.start` (lines 117-126),
* the extension-loading loop `TTSBot.load_extensions` (lines 89-92),
* the message gate `TTSBot.process_commands` (lines 104-111) together with
  the global check `only_avaliable` (lines 149-150),
* the guild-dependent trigger resolution `prefix` (lines 34-39),
* the readiness race and the shutdown block of `_real_main` (lines 173-198).

External I/O outcomes (task completion order, exceptions, completion times of
the three close operations) are inputs to the embedding; the embedding
computes what the source code observably does with them.
-/

namespace TTSBotMain

/-- Opaque stand-in for a Python exception object: only identity matters. -/
structure Err where
  code : Nat
deriving DecidableEq, Repr

/-! ### Shutdown release phase

`_real_main` (lines 196-198) runs
`await asyncio.wait_for(asyncio.gather(bot.pool.close(), bot.cache_db.close(), bot.close()), timeout=5)`.

Each close operation is modelled by a `ReleaseOp`: the time at which it
settles (`none` = it never settles) and whether it settles successfully.
`asyncio.gather` without `return_exceptions` raises the first exception as
soon as it occurs, and otherwise completes when every child has completed;
`asyncio.wait_for` with `timeout=5` re-raises the inner result if it arrives
by the deadline and raises `TimeoutError` at the deadline otherwise. -/

/-- One resource-release operation handed to the shutdown `gather`:
`dur` is the time at which it settles (`none` = never), `ok` whether it
settles successfully rather than by raising. -/
structure ReleaseOp where
  dur : Option Nat
  ok : Bool
deriving DecidableEq, Repr

/-- The time at which a release operation raises, if it ever does. -/
def failAt (o : ReleaseOp) : Option Nat :=
  if o.ok then none else o.dur

/-- Result of the shutdown release phase as observed by `_real_main`. -/
inductive RelResult
  | ok
  | err (who : Fin 3)
  | timedOut
deriving DecidableEq, Repr

/-- The earliest raising child of `gather(pool.close(), cache_db.close(), bot.close())`,
with its settle time; ties go to the earlier-listed child, matching the FIFO
scheduling of same-time callbacks on the event loop. Index 0 is the pool
close, 1 the cache close, 2 the bot connection close. -/
def minFail (p c b : ReleaseOp) : Option (Nat × Fin 3) :=
  let cands : List (Nat × Fin 3) :=
    (match failAt p with | some t => [(t, (0 : Fin 3))] | none => []) ++
    (match failAt c with | some t => [(t, (1 : Fin 3))] | none => []) ++
    (match failAt b with | some t => [(t, (2 : Fin 3))] | none => [])
  cands.foldl
    (fun acc x =>
      match acc with
      | none => some x
      | some y => if x.1 < y.1 then some x else some y)
    none

/-- Settle time and result of the inner `asyncio.gather`: it raises at the
first child failure, completes successfully once all children have completed,
and never settles if a non-raising child never settles. -/
def gatherCompletion (p c b : ReleaseOp) : Option (Nat × RelResult) :=
  match minFail p c b with
  | some (t, i) => some (t, RelResult.err i)
  | none =>
    match p.dur, c.dur, b.dur with
    | some tp, some tc, some tb => some (max tp (max tc tb), RelResult.ok)
    | _, _, _ => none

/-- The deadline passed to `asyncio.wait_for` on line 198. -/
def shutdownTimeout : Nat := 5

/-- `asyncio.wait_for(gather(...), timeout=5)`: the time at which control
returns to `_real_main` and the result it returns there. -/
def waitForRelease (p c b : ReleaseOp) : Nat × RelResult :=
  match gatherCompletion p c b with
  | some (t, r) => if t ≤ shutdownTimeout then (t, r) else (shutdownTimeout, RelResult.timedOut)
  | none => (shutdownTimeout, RelResult.timedOut)

/-- Whether a release operation has completed successfully by time `t`
(operations still in flight at `t` are abandoned when the phase ends). -/
def releasedBy (o : ReleaseOp) (t : Nat) : Bool :=
  o.ok && (match o.dur with | some d => decide (d ≤ t) | none => false)

/-! ### The readiness race and shutdown block of `_real_main` -/

/-- The external outcomes that drive one run of `_real_main`'s
try/except/finally block (lines 173-198): whether `bot_task` was among the
first-completed tasks of the `asyncio.wait` race, its retrieved exception in
that case, the eventual exception of the serve phase otherwise (`none` = the
serve loop returned cleanly), and whether `bot.user` is set when the
`finally` block runs (i.e. whether login ever completed). -/
structure Env where
  raceBotFirst : Bool
  botError : Option Err
  serveError : Option Err
  botUserSet : Bool
deriving DecidableEq, Repr

/-- Observable effects of one run of `_real_main` from the race onward. -/
structure Outcome where
  /-- line 181: `print("Bot shutdown before ready!")` executed. -/
  failedBeforeReadyReported : Bool
  /-- line 183: the exception printed via `traceback.print_exception`. -/
  surfacedTraceback : Option Err
  /-- lines 186-187: the ready notice (print + logs webhook send) emitted. -/
  readyNoticeSent : Bool
  /-- line 190: the exception logged by the outer `except` handler. -/
  topLevelLogged : Option Err
  /-- the `finally` block (lines 191-198) was entered. -/
  shutdownCoordinatorEntered : Bool
  /-- line 195: the shutdown notice was sent to the logs webhook. -/
  shutdownNoticeSent : Bool
  /-- lines 196-198: the `wait_for(gather(...))` release phase ran at all. -/
  releasePhaseRan : Bool
  /-- time units spent inside the release phase, when it ran. -/
  releaseEndTime : Option Nat
  /-- `bot.pool.close()` completed successfully before the phase ended. -/
  poolReleased : Bool
  /-- `bot.cache_db.close()` completed successfully before the phase ended. -/
  cacheReleased : Bool
  /-- `bot.close()` completed successfully before the phase ended. -/
  connReleased : Bool
  /-- the exception (release error or `TimeoutError`) escaping `_real_main`
  from the `finally` block, if any. -/
  raisedOut : Option RelResult
deriving DecidableEq, Repr

/-- Transcription of `_real_main` lines 173-198. If `bot_task` is among the
first-completed tasks, the code prints the failure notice, prints the
retrieved exception's traceback when there is one, and returns without the
ready notice; otherwise it emits the ready notice, awaits `bot_task`, and the
outer `except` logs its exception if it raises. Either way the `finally`
block runs: it returns immediately when `bot.user` is unset, and otherwise
sends the shutdown notice and runs the deadline-bounded concurrent release of
the pool, the cache and the bot connection. An exception of the release phase
replaces the pending return and escapes `_real_main`. -/
def realMain (env : Env) (p c b : ReleaseOp) : Outcome :=
  let reported := env.raceBotFirst
  let surfaced := if env.raceBotFirst then env.botError else none
  let ready := !env.raceBotFirst
  let logged := if env.raceBotFirst then none else env.serveError
  if env.botUserSet then
    let tr := waitForRelease p c b
    { failedBeforeReadyReported := reported
      surfacedTraceback := surfaced
      readyNoticeSent := ready
      topLevelLogged := logged
      shutdownCoordinatorEntered := true
      shutdownNoticeSent := true
      releasePhaseRan := true
      releaseEndTime := some tr.1
      poolReleased := releasedBy p tr.1
      cacheReleased := releasedBy c tr.1
      connReleased := releasedBy b tr.1
      raisedOut := match tr.2 with | RelResult.ok => none | r => some r }
  else
    { failedBeforeReadyReported := reported
      surfacedTraceback := surfaced
      readyNoticeSent := ready
      topLevelLogged := logged
      shutdownCoordinatorEntered := true
      shutdownNoticeSent := false
      releasePhaseRan := false
      releaseEndTime := none
      poolReleased := false
      cacheReleased := false
      connReleased := false
      raisedOut := none }

/-! ### Acquisition phase of `TTSBot.start` (lines 117-126)

`start` first constructs the cache client synchronously
(`self.cache_db = aioredis.from_url(**cache_info)`, line 122) and then runs
`asyncpg.create_pool` and `asyncgTTS.setup` concurrently under one
`asyncio.gather` (lines 123-126), assigning both results at once. There is
no rollback code: `gather` without `return_exceptions` re-raises the first
child exception, does not cancel the sibling, and nothing on the failure
path closes the cache client or a successfully created sibling handle. -/

/-- External outcome of each of the three backend acquisitions. -/
structure StartEnv where
  cacheResult : Except Err Unit
  poolResult : Except Err Unit
  gttsResult : Except Err Unit
deriving Repr

/-- Which backend handles are still held (constructed and not released)
after the acquisition phase of `TTSBot.start` finishes or raises. -/
structure Held where
  cacheHeld : Bool
  poolHeld : Bool
  gttsHeld : Bool
deriving DecidableEq, Repr

/-- Whether an acquisition outcome is a success. -/
def exOk : Except Err Unit → Bool
  | Except.ok _ => true
  | Except.error _ => false

/-- Transcription of the acquisition phase of `TTSBot.start` (lines 119-126):
the overall result (success or first propagated error) and the set of handles
still held afterwards. The cache client is constructed first, synchronously;
on any failure of the `gather`, the error propagates while the cache client
and any successfully constructed sibling handle remain held — the source has
no release code on this path. -/
def startAcquire (e : StartEnv) : Except Err Unit × Held :=
  match e.cacheResult with
  | Except.error er => (Except.error er, ⟨false, false, false⟩)
  | Except.ok _ =>
    match e.poolResult, e.gttsResult with
    | Except.ok _, Except.ok _ => (Except.ok (), ⟨true, true, true⟩)
    | Except.error er, g => (Except.error er, ⟨true, false, exOk g⟩)
    | Except.ok _, Except.error er => (Except.error er, ⟨true, true, false⟩)

/-! ### Event traces of the acquisition phase

For the concurrency claim about `TTSBot.start`, the acquisition phase is
modelled at the level of event traces. `cacheCreate` is the synchronous
cache-client construction (line 122, a single non-suspending step);
`poolStart`/`poolEnd` bracket `asyncpg.create_pool`, `gttsStart`/`gttsEnd`
bracket `asyncgTTS.setup`; `resultObserved` is the tuple assignment
`self.pool, self.gtts = await asyncio.gather(...)` (line 123), which runs
only after the `gather` has settled. The `gather` may interleave its two
children arbitrarily; the cache construction is sequenced strictly before
the `gather` begins. -/

/-- Events of the acquisition phase of `TTSBot.start`. -/
inductive AcqEvent
  | cacheCreate
  | poolStart
  | poolEnd
  | gttsStart
  | gttsEnd
  | resultObserved
deriving DecidableEq, Repr, BEq

/-- All interleavings of two event sequences, with a fuel argument to keep
the recursion structural (fuel `xs.length + ys.length` is always enough). -/
def interleavingsAux : Nat → List AcqEvent → List AcqEvent → List (List AcqEvent)
  | 0, xs, ys => [xs ++ ys]
  | _ + 1, [], ys => [ys]
  | _ + 1, x :: xs, [] => [x :: xs]
  | n + 1, x :: xs, y :: ys =>
    (interleavingsAux n xs (y :: ys)).map (fun t => x :: t) ++
    (interleavingsAux n (x :: xs) ys).map (fun t => y :: t)

/-- All interleavings of two event sequences. -/
def interleavings (xs ys : List AcqEvent) : List (List AcqEvent) :=
  interleavingsAux (xs.length + ys.length) xs ys

/-- The possible event orders of the concurrent
`gather(create_pool, asyncgTTS.setup)` phase. -/
def gatherPhaseTraces : List (List AcqEvent) :=
  interleavings [AcqEvent.poolStart, AcqEvent.poolEnd]
    [AcqEvent.gttsStart, AcqEvent.gttsEnd]

/-- All possible event traces of the acquisition phase of `TTSBot.start`:
the synchronous cache construction, then some interleaving of the two
gathered acquisitions, then the observation of the aggregate result. -/
def startAcqTraces : List (List AcqEvent) :=
  gatherPhaseTraces.map
    (fun g => AcqEvent.cacheCreate :: (g ++ [AcqEvent.resultObserved]))

/-- Whether event `a` occurs strictly before event `e2` in trace `t`
(each event occurs at most once in the traces considered here). -/
def beforeIn (t : List AcqEvent) (a e2 : AcqEvent) : Bool :=
  decide (t.indexOf a < t.indexOf e2)

/-! ### Extension loading (`TTSBot.load_extensions`, lines 89-92)

The loop filters the directory listing to `.py` files and calls
`self.load_extension(f"{folder}.{ext[:-3]}")` on each in order. The
activation entry point (`load_extension`, provided by the bot framework and
not part of this repository) either succeeds or raises an error identifying
the module; an exception aborts the `for` loop, so nothing after the failing
module is activated. Activation outcomes are an input
`activate : String → Option Err` (`some` = failure cause). -/

/-- Python's `s.endswith(suf)`: the last characters of `s` are exactly
`suf`. -/
def pyEndsWith (s suf : String) : Bool :=
  decide (s.data.reverse.take suf.data.length = suf.data.reverse)

/-- The dotted module name the loop passes to `load_extension`:
`f"{folder}.{ext[:-3]}"`. -/
def extName (folder ext : String) : String :=
  folder ++ "." ++ ext.dropRight 3

/-- The `for` loop of `load_extensions`: activates each module in order,
returns the successfully activated module names in order, and on the first
activation failure stops with that module's name and cause. -/
def loadLoop (activate : String → Option Err) (folder : String) :
    List String → List String × Option (String × Err)
  | [] => ([], none)
  | ext :: rest =>
    match activate (extName folder ext) with
    | some e => ([], some (extName folder ext, e))
    | none =>
      (extName folder ext :: (loadLoop activate folder rest).1,
       (loadLoop activate folder rest).2)

/-- Transcription of `TTSBot.load_extensions` (lines 89-92): filter the
directory listing to `.py` entries, then activate each in order, aborting at
the first failure. -/
def load_extensions (activate : String → Option Err) (folder : String)
    (files : List String) : List String × Option (String × Err) :=
  loadLoop activate folder (files.filter (fun e => pyEndsWith e ".py"))

/-! ### Message gate and trigger resolution -/

/-- The venue (guild) a message originates in, if any. -/
structure GuildInfo where
  gid : Nat
  unavailable : Bool
deriving DecidableEq, Repr

/-- An incoming message, reduced to the fields the orchestrator inspects:
whether its author is a bot account, and its originating guild if any. -/
structure Message where
  author_bot : Bool
  guild : Option GuildInfo
deriving DecidableEq, Repr

/-- The invocation context built by `get_context`: it carries the message's
guild and records which context class was selected
(`TypedGuildContext` when the message has a guild, `TypedContext` otherwise,
line 108). -/
structure Ctx where
  guild : Option GuildInfo
  isGuildCtx : Bool
deriving DecidableEq, Repr

/-- `self.get_context(message=message, cls=ctx_class)` (lines 108-109). -/
def get_context (m : Message) : Ctx :=
  ⟨m.guild, m.guild.isSome⟩

/-- `only_avaliable` (lines 149-150):
`not ctx.guild.unavailable if ctx.guild else True`. -/
def only_avaliable (ctx : Ctx) : Bool :=
  match ctx.guild with
  | some g => !g.unavailable
  | none => true

/-- Modelled from the spec: the command-dispatch precondition hook of the
bot framework (`bot.invoke` / `add_check`, not part of this repository) —
"a registered predicate invoked before every dispatch, given the Invocation
Context; returning false silently suppresses dispatch". The command
invocation step is reached exactly when every registered check passes. -/
def invokeWithChecks (checks : List (Ctx → Bool)) (ctx : Ctx) : Bool :=
  checks.all (fun ch => ch ctx)

/-- The global checks registered in `_real_main`
(`bot.add_check(only_avaliable)`, line 170). -/
def registeredChecks : List (Ctx → Bool) :=
  [only_avaliable]

/-- Transcription of `TTSBot.process_commands` (lines 104-111): messages
from bot authors return before any context construction or invocation;
otherwise the context is built and `invoke` runs the command subject to the
registered global checks. The result is whether the command-invocation step
is reached. -/
def process_commands (m : Message) : Bool :=
  if m.author_bot then false
  else invokeWithChecks registeredChecks (get_context m)

/-! ### Trigger (prefix) resolution (`prefix`, lines 34-39) -/

/-- Stored per-guild settings: guild id to key/value configuration. -/
abbrev SettingsStore := List (Nat × List (String × String))

/-- Modelled from the spec: the default value of a settings key; for the
dispatch trigger key the fixed default trigger is "-". -/
def defaultSetting (k : String) : String :=
  if k = "prefix" then "-" else ""

/-- Modelled from the spec: `bot.settings.get` of the settings store
(implemented in `extensions/database_handler`, which is not under `src/`) —
"the trigger is looked up via a per-venue settings store keyed by venue
identifier" and the resolver "must treat an absent or unregistered venue
configuration as use-default, never as an error". Returns one value per
requested key. -/
def settingsGet (store : SettingsStore) (gid : Nat) (keys : List String) :
    List String :=
  keys.map (fun k =>
    match store.lookup gid with
    | some kvs =>
      match kvs.lookup k with
      | some v => v
      | none => defaultSetting k
    | none => defaultSetting k)

/-- Transcription of `prefix` (lines 34-39): for a guild message, the first
element of `await bot.settings.get(message.guild, ["prefix"])`; for a
private message, the literal "-". -/
def prefix_fn (store : SettingsStore) (m : Message) : String :=
  match m.guild with
  | some g => (settingsGet store g.gid ["prefix"]).headD ""
  | none => "-"

/-! ## Theorems -/

/-- The release phase always hands control back within the deadline. -/
theorem waitForRelease_le_timeout (p c b : ReleaseOp) :
    (waitForRelease p c b).1 ≤ shutdownTimeout := by
  unfold waitForRelease
  cases h : gatherCompletion p c b with
  | none => simp
  | some tr =>
    by_cases ht : tr.1 ≤ shutdownTimeout
    · simp [ht]
    · simp [ht]

/-- When no close operation raises and all settle by the deadline, the
release phase ends at the latest settle time with a success result. -/
theorem waitForRelease_all_ok (p c b : ReleaseOp)
    (hpo : p.ok = true) (hco : c.ok = true) (hbo : b.ok = true)
    (dp dc db : Nat)
    (hdp : p.dur = some dp) (hdc : c.dur = some dc) (hdb : b.dur = some db)
    (hdl : max dp (max dc db) ≤ shutdownTimeout) :
    waitForRelease p c b = (max dp (max dc db), RelResult.ok) := by
  have hmf : minFail p c b = none := by
    simp [minFail, failAt, hpo, hco, hbo]
  have hg : gatherCompletion p c b = some (max dp (max dc db), RelResult.ok) := by
    simp [gatherCompletion, hmf, hdp, hdc, hdb]
  simp [waitForRelease, hg, hdl]

/-- C3: if the connect-and-serve task is among the first-completed tasks of
the readiness race, `_real_main` reports the failed-before-ready outcome,
surfaces exactly the task's retrieved exception, never emits the ready
notice, hands nothing to the outer exception handler, and proceeds directly
to the shutdown block. -/
theorem failed_before_ready_path (env : Env) (p c b : ReleaseOp)
    (h : env.raceBotFirst = true) :
    (realMain env p c b).failedBeforeReadyReported = true ∧
    (realMain env p c b).surfacedTraceback = env.botError ∧
    (realMain env p c b).readyNoticeSent = false ∧
    (realMain env p c b).topLevelLogged = none ∧
    (realMain env p c b).shutdownCoordinatorEntered = true := by
  cases hu : env.botUserSet <;> simp [realMain, h, hu]

/-- Witness for `failed_before_ready_path` at a concrete failing run. -/
theorem failed_before_ready_path_witness :
    (realMain ⟨true, some ⟨3⟩, none, false⟩ ⟨some 0, true⟩ ⟨some 0, true⟩
        ⟨some 0, true⟩).failedBeforeReadyReported = true ∧
    (realMain ⟨true, some ⟨3⟩, none, false⟩ ⟨some 0, true⟩ ⟨some 0, true⟩
        ⟨some 0, true⟩).surfacedTraceback = some ⟨3⟩ ∧
    (realMain ⟨true, some ⟨3⟩, none, false⟩ ⟨some 0, true⟩ ⟨some 0, true⟩
        ⟨some 0, true⟩).readyNoticeSent = false ∧
    (realMain ⟨true, some ⟨3⟩, none, false⟩ ⟨some 0, true⟩ ⟨some 0, true⟩
        ⟨some 0, true⟩).topLevelLogged = none ∧
    (realMain ⟨true, some ⟨3⟩, none, false⟩ ⟨some 0, true⟩ ⟨some 0, true⟩
        ⟨some 0, true⟩).shutdownCoordinatorEntered = true :=
  failed_before_ready_path ⟨true, some ⟨3⟩, none, false⟩
    ⟨some 0, true⟩ ⟨some 0, true⟩ ⟨some 0, true⟩ rfl

/-- C4: whenever the release phase runs, control returns within the 5-unit
deadline, and any close operation that never settles is abandoned rather
than waited for. -/
theorem shutdown_bounded_by_deadline (env : Env) (p c b : ReleaseOp)
    (h : (realMain env p c b).releasePhaseRan = true) :
    ∃ t, (realMain env p c b).releaseEndTime = some t ∧
      t ≤ shutdownTimeout ∧
      (p.dur = none → (realMain env p c b).poolReleased = false) ∧
      (c.dur = none → (realMain env p c b).cacheReleased = false) ∧
      (b.dur = none → (realMain env p c b).connReleased = false) := by
  cases hu : env.botUserSet with
  | false => simp [realMain, hu] at h
  | true =>
    refine ⟨(waitForRelease p c b).1, ?_, waitForRelease_le_timeout p c b,
      ?_, ?_, ?_⟩
    · simp [realMain, hu]
    · intro hd; simp [realMain, hu, releasedBy, hd]
    · intro hd; simp [realMain, hu, releasedBy, hd]
    · intro hd; simp [realMain, hu, releasedBy, hd]

/-- Witness for `shutdown_bounded_by_deadline`: the pool close never
settles, yet the phase ends by the deadline with the pool abandoned. -/
theorem shutdown_bounded_by_deadline_witness :
    ∃ t, (realMain ⟨false, none, none, true⟩ ⟨none, true⟩ ⟨some 0, true⟩
        ⟨some 0, true⟩).releaseEndTime = some t ∧
      t ≤ shutdownTimeout ∧
      ((none : Option Nat) = none →
        (realMain ⟨false, none, none, true⟩ ⟨none, true⟩ ⟨some 0, true⟩
          ⟨some 0, true⟩).poolReleased = false) ∧
      ((some 0 : Option Nat) = none →
        (realMain ⟨false, none, none, true⟩ ⟨none, true⟩ ⟨some 0, true⟩
          ⟨some 0, true⟩).cacheReleased = false) ∧
      ((some 0 : Option Nat) = none →
        (realMain ⟨false, none, none, true⟩ ⟨none, true⟩ ⟨some 0, true⟩
          ⟨some 0, true⟩).connReleased = false) :=
  shutdown_bounded_by_deadline ⟨false, none, none, true⟩
    ⟨none, true⟩ ⟨some 0, true⟩ ⟨some 0, true⟩ (by decide)

/-- C1 counterexample: a termination trigger on which no release happens.
`bot_task` finishes first (failed before ready) with login never completed
(`bot.user` unset), every close operation would settle instantly and
successfully, yet the `finally` block returns before the release phase: no
handle is released. -/
theorem shutdown_skips_release_before_login_cex :
    (realMain ⟨true, some ⟨2⟩, none, false⟩ ⟨some 0, true⟩ ⟨some 0, true⟩
        ⟨some 0, true⟩).releasePhaseRan = false ∧
    (realMain ⟨true, some ⟨2⟩, none, false⟩ ⟨some 0, true⟩ ⟨some 0, true⟩
        ⟨some 0, true⟩).poolReleased = false ∧
    (realMain ⟨true, some ⟨2⟩, none, false⟩ ⟨some 0, true⟩ ⟨some 0, true⟩
        ⟨some 0, true⟩).cacheReleased = false ∧
    (realMain ⟨true, some ⟨2⟩, none, false⟩ ⟨some 0, true⟩ ⟨some 0, true⟩
        ⟨some 0, true⟩).connReleased = false := by
  decide

/-- C1 (amended): on a termination trigger the shutdown block runs the
concurrent release of the database pool, the cache handle and the
chat-backend connection exactly when the instance acquired a user identity
(login completed); in that case, promptly and successfully settling close
operations all release their handles. On triggers before login the release
step is skipped. -/
theorem shutdown_release_runs_iff_user_set (env : Env) (p c b : ReleaseOp) :
    (realMain env p c b).releasePhaseRan = env.botUserSet ∧
    (env.botUserSet = true → p.ok = true → c.ok = true → b.ok = true →
      ∀ dp dc db, p.dur = some dp → c.dur = some dc → b.dur = some db →
        max dp (max dc db) ≤ shutdownTimeout →
        (realMain env p c b).poolReleased = true ∧
        (realMain env p c b).cacheReleased = true ∧
        (realMain env p c b).connReleased = true) := by
  constructor
  · cases hu : env.botUserSet <;> simp [realMain, hu]
  · intro hu hpo hco hbo dp dc db hdp hdc hdb hdl
    have hw := waitForRelease_all_ok p c b hpo hco hbo dp dc db hdp hdc hdb hdl
    refine ⟨?_, ?_, ?_⟩ <;>
      simp [realMain, hu, hw, releasedBy, hdp, hdc, hdb, hpo, hco, hbo]

/-- Witness for `shutdown_release_runs_iff_user_set` on a failed-before-ready
trigger with login completed and settle times 1, 2, 3. -/
theorem shutdown_release_runs_iff_user_set_witness :
    (realMain ⟨true, none, none, true⟩ ⟨some 1, true⟩ ⟨some 2, true⟩
        ⟨some 3, true⟩).releasePhaseRan = true ∧
    (realMain ⟨true, none, none, true⟩ ⟨some 1, true⟩ ⟨some 2, true⟩
        ⟨some 3, true⟩).poolReleased = true ∧
    (realMain ⟨true, none, none, true⟩ ⟨some 1, true⟩ ⟨some 2, true⟩
        ⟨some 3, true⟩).cacheReleased = true ∧
    (realMain ⟨true, none, none, true⟩ ⟨some 1, true⟩ ⟨some 2, true⟩
        ⟨some 3, true⟩).connReleased = true :=
  ⟨(shutdown_release_runs_iff_user_set ⟨true, none, none, true⟩
      ⟨some 1, true⟩ ⟨some 2, true⟩ ⟨some 3, true⟩).1,
   (shutdown_release_runs_iff_user_set ⟨true, none, none, true⟩
      ⟨some 1, true⟩ ⟨some 2, true⟩ ⟨some 3, true⟩).2
      rfl rfl rfl rfl 1 2 3 rfl rfl rfl (by decide)⟩

/-- C5 counterexample: the cache close raises immediately while the pool
close needs 3 time units; the release error escapes `_real_main` as an
unhandled exception (escalated, not merely logged) and the pool release is
abandoned rather than run to completion. -/
theorem release_failure_escalates_cex :
    (realMain ⟨false, none, none, true⟩ ⟨some 3, true⟩ ⟨some 0, false⟩
        ⟨some 0, true⟩).raisedOut = some (RelResult.err 1) ∧
    (realMain ⟨false, none, none, true⟩ ⟨some 3, true⟩ ⟨some 0, false⟩
        ⟨some 0, true⟩).poolReleased = false := by
  decide

/-- C5 (amended): when a release operation raises before the deadline, its
error is re-raised out of the shutdown block (the `gather` has no
`return_exceptions` and the `wait_for` result is not caught), the phase ends
at that failure time, and sibling releases still in flight at that moment
are abandoned; the phase still ends within the deadline. -/
theorem release_failure_escalates (env : Env) (p c b : ReleaseOp)
    (t : Nat) (i : Fin 3)
    (hu : env.botUserSet = true)
    (hf : minFail p c b = some (t, i))
    (ht : t ≤ shutdownTimeout) :
    (realMain env p c b).raisedOut = some (RelResult.err i) ∧
    (realMain env p c b).releaseEndTime = some t ∧
    (∀ d, p.dur = some d → t < d →
      (realMain env p c b).poolReleased = false) ∧
    (∀ d, c.dur = some d → t < d →
      (realMain env p c b).cacheReleased = false) ∧
    (∀ d, b.dur = some d → t < d →
      (realMain env p c b).connReleased = false) := by
  have hg : gatherCompletion p c b = some (t, RelResult.err i) := by
    simp [gatherCompletion, hf]
  have hw : waitForRelease p c b = (t, RelResult.err i) := by
    simp [waitForRelease, hg, ht]
  refine ⟨?_, ?_, ?_, ?_, ?_⟩
  · simp [realMain, hu, hw]
  · simp [realMain, hu, hw]
  · intro d hd hlt
    have hnle : ¬ d ≤ t := Nat.not_le.mpr hlt
    simp [realMain, hu, hw, releasedBy, hd, hnle]
  · intro d hd hlt
    have hnle : ¬ d ≤ t := Nat.not_le.mpr hlt
    simp [realMain, hu, hw, releasedBy, hd, hnle]
  · intro d hd hlt
    have hnle : ¬ d ≤ t := Nat.not_le.mpr hlt
    simp [realMain, hu, hw, releasedBy, hd, hnle]

/-- Witness for `release_failure_escalates`: the cache close raises at time
1 while the pool close would need 4 units. -/
theorem release_failure_escalates_witness :
    (realMain ⟨true, none, none, true⟩ ⟨some 4, true⟩ ⟨some 1, false⟩
        ⟨some 0, true⟩).raisedOut = some (RelResult.err 1) ∧
    (realMain ⟨true, none, none, true⟩ ⟨some 4, true⟩ ⟨some 1, false⟩
        ⟨some 0, true⟩).releaseEndTime = some 1 ∧
    (∀ d, (some 4 : Option Nat) = some d → 1 < d →
      (realMain ⟨true, none, none, true⟩ ⟨some 4, true⟩ ⟨some 1, false⟩
        ⟨some 0, true⟩).poolReleased = false) ∧
    (∀ d, (some 1 : Option Nat) = some d → 1 < d →
      (realMain ⟨true, none, none, true⟩ ⟨some 4, true⟩ ⟨some 1, false⟩
        ⟨some 0, true⟩).cacheReleased = false) ∧
    (∀ d, (some 0 : Option Nat) = some d → 1 < d →
      (realMain ⟨true, none, none, true⟩ ⟨some 4, true⟩ ⟨some 1, false⟩
        ⟨some 0, true⟩).connReleased = false) :=
  release_failure_escalates ⟨true, none, none, true⟩
    ⟨some 4, true⟩ ⟨some 1, false⟩ ⟨some 0, true⟩ 1 1 rfl (by decide) (by decide)

/-- C2 counterexample: the cache client and the speech client are acquired
successfully while the pool creation fails; the initializer propagates the
failure, yet the cache handle and the speech handle remain held — the
already-acquired siblings are not released. -/
theorem partial_acquisition_leak_cex :
    exOk (startAcquire ⟨Except.ok (), Except.error ⟨0⟩, Except.ok ()⟩).1
      = false ∧
    (startAcquire ⟨Except.ok (), Except.error ⟨0⟩, Except.ok ()⟩).2.cacheHeld
      = true ∧
    (startAcquire ⟨Except.ok (), Except.error ⟨0⟩, Except.ok ()⟩).2.gttsHeld
      = true ∧
    (startAcquire ⟨Except.ok (), Except.error ⟨0⟩, Except.ok ()⟩).2
      ≠ ⟨false, false, false⟩ := by
  decide

/-- C2 (amended): the acquisition phase of `TTSBot.start` succeeds exactly
when all three backend acquisitions succeed, and on failure it performs no
rollback: the cache handle is held whenever its construction succeeded, and
each gathered sibling handle is held whenever its own creation succeeded,
regardless of the failure. -/
theorem startAcquire_no_rollback (e : StartEnv) :
    exOk (startAcquire e).1
      = (exOk e.cacheResult && exOk e.poolResult && exOk e.gttsResult) ∧
    (startAcquire e).2.cacheHeld = exOk e.cacheResult ∧
    (startAcquire e).2.poolHeld = (exOk e.cacheResult && exOk e.poolResult) ∧
    (startAcquire e).2.gttsHeld = (exOk e.cacheResult && exOk e.gttsResult) := by
  obtain ⟨cr, pr, gr⟩ := e
  cases cr <;> cases pr <;> cases gr <;> simp [startAcquire, exOk]

/-- C9 counterexample: in every possible trace of the acquisition phase of
`TTSBot.start`, the cache-client construction is completed strictly before
the database-pool creation and the speech-client creation begin — the three
acquisitions do not all run concurrently. -/
theorem cache_create_not_concurrent_cex :
    startAcqTraces.all
      (fun t => beforeIn t AcqEvent.cacheCreate AcqEvent.poolStart &&
                beforeIn t AcqEvent.cacheCreate AcqEvent.gttsStart) = true := by
  decide

/-- C9 (amended): during resource initialization the database-pool creation
and the speech-client creation run concurrently — traces exist with either
start order and with both acquisitions in flight at once — and the aggregate
result is observed only after both have settled; the cache-client creation,
however, is a synchronous step sequenced before the concurrent phase in
every trace. -/
theorem acquisition_concurrency_shape :
    (startAcqTraces.any
      (fun t => beforeIn t AcqEvent.poolStart AcqEvent.gttsStart) = true) ∧
    (startAcqTraces.any
      (fun t => beforeIn t AcqEvent.gttsStart AcqEvent.poolStart) = true) ∧
    (startAcqTraces.any
      (fun t => beforeIn t AcqEvent.poolStart AcqEvent.gttsEnd &&
                beforeIn t AcqEvent.gttsStart AcqEvent.poolEnd) = true) ∧
    (startAcqTraces.all
      (fun t => beforeIn t AcqEvent.poolEnd AcqEvent.resultObserved &&
                beforeIn t AcqEvent.gttsEnd AcqEvent.resultObserved) = true) ∧
    (startAcqTraces.all
      (fun t => beforeIn t AcqEvent.cacheCreate AcqEvent.poolStart &&
                beforeIn t AcqEvent.cacheCreate AcqEvent.gttsStart) = true) := by
  decide

/-- On a failing run, `loadLoop` activated exactly the modules listed before
the failing one, all successfully, and stopped at the failing module with
its cause. -/
theorem loadLoop_fail (activate : String → Option Err) (folder : String)
    (l : List String) :
    ∀ (n : String) (e : Err),
      (loadLoop activate folder l).2 = some (n, e) →
      activate n = some e ∧
      ∃ pre post, l.map (extName folder) = pre ++ n :: post ∧
        (loadLoop activate folder l).1 = pre ∧
        ∀ m ∈ pre, activate m = none := by
  induction l with
  | nil => intro n e h; simp [loadLoop] at h
  | cons ext rest ih =>
    intro n e h
    cases hact : activate (extName folder ext) with
    | some e0 =>
      have hne : extName folder ext = n ∧ e0 = e := by
        have h2 := h
        simp [loadLoop, hact] at h2
        exact h2
      refine ⟨?_, [], rest.map (extName folder), ?_, ?_, ?_⟩
      · rw [← hne.1, hact, hne.2]
      · simp [← hne.1]
      · simp [loadLoop, hact]
      · intro m hm; simp at hm
    | none =>
      have h2 : (loadLoop activate folder rest).2 = some (n, e) := by
        have h3 := h
        simp [loadLoop, hact] at h3
        exact h3
      obtain ⟨ha, pre, post, hmap, hacts, hall⟩ := ih n e h2
      refine ⟨ha, extName folder ext :: pre, post, ?_, ?_, ?_⟩
      · simp [hmap]
      · simp [loadLoop, hact, hacts]
      · intro m hm
        rcases List.mem_cons.mp hm with hm1 | hm2
        · rw [hm1]; exact hact
        · exact hall m hm2

/-- C6: if activating module `n` fails, the loader surfaces `n` together
with the underlying cause, the activated modules are exactly those listed
before `n`, and no module listed after `n` is ever activated. -/
theorem loader_aborts_on_failure (activate : String → Option Err)
    (folder : String) (files : List String) (n : String) (e : Err)
    (h : (load_extensions activate folder files).2 = some (n, e)) :
    activate n = some e ∧
    ∃ pre post,
      ((files.filter (fun f => pyEndsWith f ".py")).map (extName folder))
        = pre ++ n :: post ∧
      (load_extensions activate folder files).1 = pre ∧
      (∀ m ∈ pre, activate m = none) ∧
      (∀ m ∈ post, m ∉ pre →
        m ∉ (load_extensions activate folder files).1) := by
  have h0 : (loadLoop activate folder
      (files.filter (fun f => pyEndsWith f ".py"))).2 = some (n, e) := h
  obtain ⟨ha, pre, post, hmap, hacts, hall⟩ :=
    loadLoop_fail activate folder (files.filter (fun f => pyEndsWith f ".py"))
      n e h0
  refine ⟨ha, pre, post, hmap, hacts, hall, ?_⟩
  intro m _ hnot
  rw [show (load_extensions activate folder files).1
      = (loadLoop activate folder
          (files.filter (fun f => pyEndsWith f ".py"))).1 from rfl, hacts]
  exact hnot

/-- Concrete activation map for the loader witness: the second module fails,
the others succeed. -/
def actW : String → Option Err :=
  fun s => if s = "cogs.b" then some ⟨7⟩ else none

/-- Witness for `loader_aborts_on_failure`: three modules where the second
fails; the first is activated, the third never is. -/
theorem loader_aborts_on_failure_witness :
    actW "cogs.b" = some ⟨7⟩ ∧
    ∃ pre post,
      ((["a.py", "b.py", "c.py"].filter
          (fun f => pyEndsWith f ".py")).map (extName "cogs"))
        = pre ++ "cogs.b" :: post ∧
      (load_extensions actW "cogs" ["a.py", "b.py", "c.py"]).1 = pre ∧
      (∀ m ∈ pre, actW m = none) ∧
      (∀ m ∈ post, m ∉ pre →
        m ∉ (load_extensions actW "cogs" ["a.py", "b.py", "c.py"]).1) :=
  loader_aborts_on_failure actW "cogs" ["a.py", "b.py", "c.py"]
    "cogs.b" ⟨7⟩ (by decide)

/-- C7: a message authored by a bot account, or originating in a guild
marked unavailable, never reaches the command-invocation step. -/
theorem dispatch_gate (m : Message)
    (h : m.author_bot = true ∨
      ∃ g, m.guild = some g ∧ g.unavailable = true) :
    process_commands m = false := by
  rcases h with hb | ⟨g, hg, hun⟩
  · simp [process_commands, hb]
  · cases hab : m.author_bot with
    | true => simp [process_commands, hab]
    | false =>
      simp [process_commands, hab, invokeWithChecks, registeredChecks,
        only_avaliable, get_context, hg, hun]

/-- Witness for `dispatch_gate`: a human-authored message from an
unavailable guild is not dispatched. -/
theorem dispatch_gate_witness :
    process_commands ⟨false, some ⟨5, true⟩⟩ = false :=
  dispatch_gate ⟨false, some ⟨5, true⟩⟩ (Or.inr ⟨⟨5, true⟩, rfl, rfl⟩)

/-- C8: trigger resolution returns the fixed default "-" for every private
message regardless of the stored configuration, and for a guild message
whose guild is unregistered in the store or registered without a stored
trigger key. -/
theorem prefix_resolver_defaults (store : SettingsStore) (m : Message) :
    (m.guild = none → prefix_fn store m = "-") ∧
    (∀ g, m.guild = some g → store.lookup g.gid = none →
      prefix_fn store m = "-") ∧
    (∀ g kvs, m.guild = some g → store.lookup g.gid = some kvs →
      kvs.lookup "prefix" = none → prefix_fn store m = "-") := by
  refine ⟨?_, ?_, ?_⟩
  · intro hg
    simp [prefix_fn, hg]
  · intro g hg hlk
    simp [prefix_fn, hg, settingsGet, hlk, defaultSetting]
  · intro g kvs hg hlk hkv
    simp [prefix_fn, hg, settingsGet, hlk, hkv, defaultSetting]

/-- Witness for `prefix_resolver_defaults`: a private message with a stored
venue configuration present, a guild message with an unregistered guild, and
a guild message whose configuration lacks the trigger key all resolve to
"-". -/
theorem prefix_resolver_defaults_witness :
    prefix_fn [(5, [("prefix", "!")])] ⟨false, none⟩ = "-" ∧
    prefix_fn [] ⟨false, some ⟨9, false⟩⟩ = "-" ∧
    prefix_fn [(9, [("xyz", "q")])] ⟨false, some ⟨9, false⟩⟩ = "-" :=
  ⟨(prefix_resolver_defaults [(5, [("prefix", "!")])] ⟨false, none⟩).1 rfl,
   (prefix_resolver_defaults [] ⟨false, some ⟨9, false⟩⟩).2.1
     ⟨9, false⟩ rfl (by decide),
   (prefix_resolver_defaults [(9, [("xyz", "q")])]
       ⟨false, some ⟨9, false⟩⟩).2.2
     ⟨9, false⟩ [("xyz", "q")] rfl (by decide) (by decide)⟩

/-- C10: the global dispatch check `only_avaliable` returns true for every
context without an originating guild, so it can never suppress dispatch of a
private message. -/
theorem only_avaliable_private_true (ctx : Ctx) (h : ctx.guild = none) :
    only_avaliable ctx = true := by
  simp [only_avaliable, h]

/-- Witness for `only_avaliable_private_true` on a concrete private
context. -/
theorem only_avaliable_private_true_witness :
    only_avaliable ⟨none, false⟩ = true :=
  only_avaliable_private_true ⟨none, false⟩ rfl

end TTSBotMain
